/-
Verification of the core logic of the brale-cli client:
the compatible-address selector (src/brale/cli.py, transfers/automations
create commands) and the OAuth2 token lifecycle / request dispatcher
(src/brale/auth.py, src/brale/config.py).

The Python source is shallowly embedded: dictionaries become structures,
Python truthiness of optional strings and integers is modelled explicitly,
time is a Nat parameter, and the network is an oracle (a function from the
call index to the response) threaded through explicit state passing.
-/
import Mathlib

namespace Brale

/-! ## Compatible address selection (src/brale/cli.py lines 479-502 and 897-920)

An address record as returned by `GET /accounts/{id}/addresses`.
`transfer_types` models `addr.get('transfer_types', [])` (a missing key is
the empty list). -/

structure Address where
  id : String
  status : String
  transfer_types : List String
deriving Repr, DecidableEq

/-- Python truthiness of the `network` variable: `None` and the empty
string are falsy. -/
def netRequested : Option String → Bool
  | none => false
  | some n => !(n == "")

/-- The selection loop:
`for addr in addresses: if addr['status'] == 'active': ...` with the two
branches `if network and network in transfer_types` and
`elif not network and transfer_types`, breaking on the first match and
returning the chosen address together with the effective network
(`network` itself, or `transfer_types[0]` in the auto-select branch). -/
def findCompatible (network : Option String) : List Address → Option (Address × String)
  | [] => none
  | addr :: rest =>
    if addr.status == "active" then
      if netRequested network && addr.transfer_types.contains (network.getD "") then
        some (addr, network.getD "")
      else if !netRequested network && !addr.transfer_types.isEmpty then
        some (addr, addr.transfer_types.headD "")
      else
        findCompatible network rest
    else
      findCompatible network rest

/-- The diagnostic list built when no compatible address exists:
`available_networks.extend(addr.get('transfer_types', []))` over all
addresses with `status == 'active'` (duplicates kept; the CLI displays
`set(available_networks)`). -/
def availableNetworks (addresses : List Address) : List String :=
  (addresses.filter (fun a => a.status == "active")).flatMap (fun a => a.transfer_types)

/-- The whole selection step: first match wins, otherwise the failure
carries the available-networks diagnostic. -/
def selectCompatibleAddress (network : Option String) (addresses : List Address) :
    Except (List String) (Address × String) :=
  match findCompatible network addresses with
  | some r => Except.ok r
  | none => Except.error (availableNetworks addresses)

/-- Spec-side qualification predicate, from the spec's words: an address
qualifies when its status is active and, if a network was requested, its
supported networks contain it; with no requested network, when it has any
supported network at all. -/
def qualifies (network : Option String) (a : Address) : Bool :=
  a.status == "active" &&
    (if netRequested network then a.transfer_types.contains (network.getD "")
     else !a.transfer_types.isEmpty)

/-- The union, as a `Finset`, of the supported networks of the active
addresses. -/
def activeNetworkUnion (addresses : List Address) : Finset String :=
  (addresses.filter (fun a => a.status == "active")).foldr
    (fun a acc => a.transfer_types.toFinset ∪ acc) ∅

/-! ## Token lifecycle and request dispatcher (src/brale/auth.py, src/brale/config.py)

The credentials file / environment pair is modelled as a record of optional
strings; `time.time()` is a `Nat` parameter passed to each operation; the
token endpoint and the resource endpoints are oracles: functions from the
call index to the response, with the number of calls made so far recorded
in the `World`.  Each operation returns its result together with the new
config state, the new world, and the list of observable events (token
endpoint calls, resource requests with the attached bearer token). -/

/-- Python truthiness of an optional string: `None` and `""` are falsy. -/
def truthy : Option String → Bool
  | none => false
  | some s => !(s == "")

/-- The process-local persisted state: the credentials file's
`client_id`, `client_secret`, `access_token`, `token_expires_at`, plus the
config file's `default_account` (standing for the non-secret settings). -/
structure ConfigState where
  clientId : Option String
  clientSecret : Option String
  accessToken : Option String
  tokenExpiresAt : Option Nat
  defaultAccount : Option String
deriving Repr, DecidableEq

/-- A response of the token endpoint: a 200 with `access_token` and
optional `expires_in`, or anything that makes `authenticate` raise
(non-200 status, network error). -/
inductive AuthResp
  | ok (access_token : String) (expires_in : Option Nat)
  | err
deriving Repr, DecidableEq

/-- The outside world: the token endpoint oracle, the resource endpoint
oracle (status code of each successive `session.request`), and how many
calls each has received. -/
structure World where
  authResp : Nat → AuthResp
  httpResp : Nat → Nat
  authCalls : Nat
  httpCalls : Nat

/-- Observable events: a call to the token endpoint, or a resource request
carrying a bearer token (recorded with the cached token's stored expiry at
the moment the request goes out). -/
inductive Event
  | authCall
  | httpCall (bearer : String) (expiresAt : Option Nat)
deriving Repr, DecidableEq

/-- `BraleConfig.get_client_credentials`: environment variables and the
stored credentials are merged into the two optional fields. -/
def get_client_credentials (s : ConfigState) : Option String × Option String :=
  (s.clientId, s.clientSecret)

/-- `BraleConfig.set_access_token`: stores the token, and the expiry only
when it is truthy (`if expires_at:`), so an expiry of 0 is not stored. -/
def set_access_token (token : String) (expires_at : Nat) (s : ConfigState) : ConfigState :=
  let s2 := { s with accessToken := some token }
  if expires_at ≠ 0 then { s2 with tokenExpiresAt := some expires_at } else s2

/-- `BraleConfig.clear_access_token`: pops `access_token` and
`token_expires_at`. -/
def clear_access_token (s : ConfigState) : ConfigState :=
  { s with accessToken := none, tokenExpiresAt := none }

/-- The two ways `BraleAuth.authenticate` raises: `ValueError` when no
credentials are available, `RuntimeError` on a non-200 response or a
network failure. -/
inductive AuthErr
  | missingCreds
  | authFailed
deriving Repr, DecidableEq

structure AuthOut where
  res : Except AuthErr Unit
  cfg : ConfigState
  world : World
  trace : List Event

/-- The credential pair `authenticate` ends up using: the arguments when
both are truthy, otherwise (`if not client_id or not client_secret:`) the
pair from `get_client_credentials`. -/
def resolved_credentials (cid0 cs0 : Option String) (s : ConfigState) :
    Option String × Option String :=
  if !(truthy cid0) || !(truthy cs0) then get_client_credentials s else (cid0, cs0)

/-- `BraleAuth.authenticate(client_id, client_secret)`: falls back to
`get_client_credentials` when either argument is falsy, raises
`ValueError` when the resolved pair is still incomplete, otherwise POSTs
to the token endpoint; on a 200 stores the token with
`expires_at = now + expires_in` (default 3600) and stores both
credentials. -/
def authenticate (now : Nat) (cid0 cs0 : Option String) (s : ConfigState) (w : World) :
    AuthOut :=
  let p := resolved_credentials cid0 cs0 s
  if !(truthy p.1) || !(truthy p.2) then
    { res := Except.error AuthErr.missingCreds, cfg := s, world := w, trace := [] }
  else
    let resp := w.authResp w.authCalls
    let w2 := { w with authCalls := w.authCalls + 1 }
    match resp with
    | AuthResp.err =>
      { res := Except.error AuthErr.authFailed, cfg := s, world := w2, trace := [Event.authCall] }
    | AuthResp.ok tok expIn =>
      let expires_at := now + expIn.getD 3600
      let s2 := set_access_token tok expires_at s
      { res := Except.ok (), cfg := { s2 with clientId := p.1, clientSecret := p.2 },
        world := w2, trace := [Event.authCall] }

/-- `BraleAuth.is_authenticated`: false when no truthy token is cached;
when the stored expiry is truthy and `now >= expires_at`, evicts the token
and returns false; otherwise true.  Returns the possibly-updated state. -/
def is_authenticated (now : Nat) (s : ConfigState) : Bool × ConfigState :=
  if !(truthy s.accessToken) then (false, s)
  else
    match s.tokenExpiresAt with
    | some e => if e ≠ 0 ∧ e ≤ now then (false, clear_access_token s) else (true, s)
    | none => (true, s)

structure TokOut where
  tok : Option String
  cfg : ConfigState
  world : World
  trace : List Event

/-- `BraleAuth.get_access_token`: cache hit when `is_authenticated`;
otherwise one best-effort `authenticate` with the stored credentials, with
every exception swallowed into a `none` result. -/
def get_access_token (now : Nat) (s : ConfigState) (w : World) : TokOut :=
  let r := is_authenticated now s
  if r.1 then { tok := r.2.accessToken, cfg := r.2, world := w, trace := [] }
  else
    let p := get_client_credentials r.2
    if truthy p.1 && truthy p.2 then
      let a := authenticate now p.1 p.2 r.2 w
      match a.res with
      | Except.ok _ => { tok := a.cfg.accessToken, cfg := a.cfg, world := a.world, trace := a.trace }
      | Except.error _ => { tok := none, cfg := a.cfg, world := a.world, trace := a.trace }
    else { tok := none, cfg := r.2, world := w, trace := [] }

structure HdrOut where
  hdr : Except Unit String
  cfg : ConfigState
  world : World
  trace : List Event

/-- `BraleAuth.get_auth_headers`: the `Authorization: Bearer <token>`
header, raising when `get_access_token` yields a falsy token.  Modelled as
the bearer token itself. -/
def get_auth_headers (now : Nat) (s : ConfigState) (w : World) : HdrOut :=
  let r := get_access_token now s w
  if truthy r.tok then
    { hdr := Except.ok (r.tok.getD ""), cfg := r.cfg, world := r.world, trace := r.trace }
  else
    { hdr := Except.error (), cfg := r.cfg, world := r.world, trace := r.trace }

/-- `BraleAuth.logout`: `config.clear_access_token()`; credentials kept. -/
def logout (s : ConfigState) : ConfigState :=
  clear_access_token s

/-- The dispatcher's state: the config plus the session's current
`Authorization` header. -/
structure ClientState where
  cfg : ConfigState
  sessionBearer : Option String
deriving Repr, DecidableEq

inductive ReqErr
  | notAuthenticated
deriving Repr, DecidableEq

structure EnsOut where
  res : Except ReqErr Unit
  state : ClientState
  world : World
  trace : List Event

/-- `BraleAPIClient._ensure_authenticated`: raises `RuntimeError` when
`is_authenticated()` is false, then updates the session headers from
`get_auth_headers()` (whose own `RuntimeError` propagates the same way). -/
def ensure_authenticated (now : Nat) (st : ClientState) (w : World) : EnsOut :=
  let r := is_authenticated now st.cfg
  if r.1 then
    let h := get_auth_headers now r.2 w
    match h.hdr with
    | Except.ok t =>
      { res := Except.ok (), state := { cfg := h.cfg, sessionBearer := some t },
        world := h.world, trace := h.trace }
    | Except.error _ =>
      { res := Except.error ReqErr.notAuthenticated,
        state := { cfg := h.cfg, sessionBearer := st.sessionBearer },
        world := h.world, trace := h.trace }
  else
    { res := Except.error ReqErr.notAuthenticated, state := { st with cfg := r.2 },
      world := w, trace := [] }

/-- One `session.request`: consumes the next resource-endpoint status and
records the attached bearer together with the cached expiry. -/
def session_request (st : ClientState) (w : World) : Nat × World × List Event :=
  (w.httpResp w.httpCalls, { w with httpCalls := w.httpCalls + 1 },
    [Event.httpCall (st.sessionBearer.getD "") st.cfg.tokenExpiresAt])

structure ReqOut where
  result : Except ReqErr Nat
  state : ClientState
  world : World
  trace : List Event

/-- `BraleAPIClient.request`: ensure authentication, issue the request; on
a 401, re-read the credentials and, when both are truthy, re-authenticate,
refresh the session headers and resend once, any exception in that block
being swallowed so the original 401 is returned. -/
def request (now : Nat) (st : ClientState) (w : World) : ReqOut :=
  let e := ensure_authenticated now st w
  match e.res with
  | Except.error er =>
    { result := Except.error er, state := e.state, world := e.world, trace := e.trace }
  | Except.ok _ =>
    let st1 := e.state
    let q1 := session_request st1 e.world
    if q1.1 == 401 then
      let p := get_client_credentials st1.cfg
      if truthy p.1 && truthy p.2 then
        let a := authenticate now p.1 p.2 st1.cfg q1.2.1
        match a.res with
        | Except.ok _ =>
          let h := get_auth_headers now a.cfg a.world
          match h.hdr with
          | Except.ok t =>
            let st2 : ClientState := { cfg := h.cfg, sessionBearer := some t }
            let q2 := session_request st2 h.world
            { result := Except.ok q2.1, state := st2, world := q2.2.1,
              trace := e.trace ++ q1.2.2 ++ a.trace ++ h.trace ++ q2.2.2 }
          | Except.error _ =>
            { result := Except.ok q1.1,
              state := { cfg := h.cfg, sessionBearer := st1.sessionBearer },
              world := h.world, trace := e.trace ++ q1.2.2 ++ a.trace ++ h.trace }
        | Except.error _ =>
          { result := Except.ok q1.1,
            state := { cfg := a.cfg, sessionBearer := st1.sessionBearer },
            world := a.world, trace := e.trace ++ q1.2.2 ++ a.trace }
      else
        { result := Except.ok q1.1, state := st1, world := q1.2.1, trace := e.trace ++ q1.2.2 }
    else
      { result := Except.ok q1.1, state := st1, world := q1.2.1, trace := e.trace ++ q1.2.2 }

/-- A token grant that is immediately usable: non-empty `access_token` and
an effective `expires_in` (default 3600) that is nonzero, so the freshly
stored token is valid at the moment it is stored.  `err` responses are
unconstrained. -/
def usableGrant : AuthResp → Bool
  | AuthResp.ok t n => !(t == "") && !(n.getD 3600 == 0)
  | AuthResp.err => true

/-- Whether a stored expiry counts as expired at time `now` under the
source's check (`if expires_at and now >= expires_at`). -/
def expiredB (now : Nat) : Option Nat → Bool
  | some e => (e != 0) && decide (e ≤ now)
  | none => false

/-- A trace is safe when no resource request before the first token
endpoint call attaches an expired token; once a refresh attempt has
happened, every later attach is (vacuously) preceded by it. -/
def safeTrace (now : Nat) : List Event → Bool
  | [] => true
  | Event.authCall :: _ => true
  | Event.httpCall _ e? :: rest => !expiredB now e? && safeTrace now rest

/-- A state holding an expired token (expiry 5) together with working
credentials. -/
def staleState : ClientState :=
  { cfg := { clientId := some "id", clientSecret := some "sec", accessToken := some "tok",
             tokenExpiresAt := some 5, defaultAccount := none },
    sessionBearer := none }

/-- A world whose token endpoint always grants a fresh one-hour token and
whose resource endpoints always answer 200. -/
def freshWorld : World :=
  { authResp := fun _ => AuthResp.ok "fresh" (some 3600),
    httpResp := fun _ => 200, authCalls := 0, httpCalls := 0 }

/-- A state holding a token valid until time 100, with credentials. -/
def validState : ClientState :=
  { cfg := { clientId := some "id", clientSecret := some "sec", accessToken := some "tok",
             tokenExpiresAt := some 100, defaultAccount := none },
    sessionBearer := none }

/-- A state holding a token valid until time 100, without credentials. -/
def noCredsState : ClientState :=
  { cfg := { clientId := none, clientSecret := none, accessToken := some "tok",
             tokenExpiresAt := some 100, defaultAccount := none },
    sessionBearer := none }

/-- A world whose token endpoint grants tokens that expire immediately
(`expires_in = 0`) and whose resource endpoints always answer 401. -/
def zeroLifeWorld : World :=
  { authResp := fun _ => AuthResp.ok "t2" (some 0),
    httpResp := fun _ => 401, authCalls := 0, httpCalls := 0 }

/-! ## Theorems -/

/-- The loop is the first-match search for `qualifies`. -/
theorem findCompatible_eq_find (network : Option String) (addrs : List Address) :
    findCompatible network addrs =
      (addrs.find? (qualifies network)).map (fun a =>
        (a, if netRequested network then network.getD "" else a.transfer_types.headD "")) := by
  induction addrs with
  | nil => rfl
  | cons addr rest ih =>
    simp only [findCompatible, qualifies, List.find?]
    by_cases hs : addr.status == "active"
    · by_cases hn : netRequested network
      · by_cases hc : network.getD "" ∈ addr.transfer_types
        · simp [hs, hn, hc]
        · simp [hs, hn, hc, ih]
      · by_cases he : addr.transfer_types.isEmpty
        · simp [hs, hn, he, ih]
        · simp [hs, hn, he]
    · simp [hs, ih]

theorem availableNetworks_toFinset (addrs : List Address) :
    (availableNetworks addrs).toFinset = activeNetworkUnion addrs := by
  unfold availableNetworks activeNetworkUnion
  induction addrs with
  | nil => rfl
  | cons addr rest ih =>
    by_cases hs : addr.status == "active"
    · simp only [List.filter_cons, hs, if_true, List.flatMap_cons, List.toFinset_append,
        List.foldr_cons, ih]
    · simp only [List.filter_cons, hs]
      simpa using ih

/-- C1. Compatible address selection: a successful selection returns the
first address in list order that qualifies (active and supporting the
requested network; with no requested network, active with any supported
network, the effective network being its first listed one); a failure
happens exactly when no address qualifies and carries a list whose
underlying set is the union of all active addresses' supported networks.
First match wins: the result is characterised by `List.find?`. -/
theorem selectCompatibleAddress_correct (network : Option String) (addrs : List Address) :
    (∀ a net, selectCompatibleAddress network addrs = Except.ok (a, net) →
      addrs.find? (qualifies network) = some a ∧
      net = (if netRequested network then network.getD "" else a.transfer_types.headD "")) ∧
    (∀ ns, selectCompatibleAddress network addrs = Except.error ns →
      (∀ a ∈ addrs, qualifies network a = false) ∧
      ns.toFinset = activeNetworkUnion addrs) := by
  constructor
  · intro a net hok
    cases hfind : addrs.find? (qualifies network) with
    | none =>
      simp [selectCompatibleAddress, findCompatible_eq_find, hfind] at hok
    | some b =>
      simp only [selectCompatibleAddress, findCompatible_eq_find, hfind,
        Option.map, Except.ok.injEq, Prod.mk.injEq] at hok
      obtain ⟨hb, hnet⟩ := hok
      subst hb
      exact ⟨rfl, hnet.symm⟩
  · intro ns herr
    cases hfind : addrs.find? (qualifies network) with
    | some b =>
      simp [selectCompatibleAddress, findCompatible_eq_find, hfind] at herr
    | none =>
      simp only [selectCompatibleAddress, findCompatible_eq_find, hfind,
        Option.map, Except.error.injEq] at herr
      subst herr
      refine ⟨?_, availableNetworks_toFinset addrs⟩
      intro a ha
      have := List.find?_eq_none.mp hfind
      simpa using this a ha

/-- Witness for the selector: the spec's own examples. With
`[a1 ↦ base, a2 ↦ solana]` and requested network `solana`, `a2` is chosen;
with only an inactive address, selection fails and no address qualifies. -/
theorem selectCompatibleAddress_correct_witness :
    (List.find? (qualifies (some "solana"))
        [⟨"a1", "active", ["base"]⟩, ⟨"a2", "active", ["solana"]⟩] =
      some ⟨"a2", "active", ["solana"]⟩) ∧
    (∀ a ∈ [Address.mk "a1" "inactive" ["base"]], qualifies (some "base") a = false) := by
  constructor
  · exact ((selectCompatibleAddress_correct (some "solana")
      [⟨"a1", "active", ["base"]⟩, ⟨"a2", "active", ["solana"]⟩]).1
      ⟨"a2", "active", ["solana"]⟩ "solana" rfl).1
  · exact ((selectCompatibleAddress_correct (some "base")
      [⟨"a1", "inactive", ["base"]⟩]).2 [] rfl).1

/-! ### Helper lemmas about the token manager -/

theorem truthy_accessToken_of_valid {now : Nat} {s : ConfigState}
    (h : (is_authenticated now s).1 = true) : truthy s.accessToken = true := by
  cases ht : truthy s.accessToken with
  | true => rfl
  | false => simp [is_authenticated, ht] at h

theorem is_authenticated_snd_of_valid {now : Nat} {s : ConfigState}
    (h : (is_authenticated now s).1 = true) : (is_authenticated now s).2 = s := by
  have ht := truthy_accessToken_of_valid h
  cases hte : s.tokenExpiresAt with
  | none => simp [is_authenticated, ht, hte]
  | some e =>
    by_cases hc : e ≠ 0 ∧ e ≤ now
    · simp [is_authenticated, ht, hte, hc] at h
    · simp [is_authenticated, ht, hte, hc]

theorem not_expired_of_valid {now : Nat} {s : ConfigState} {e : Nat}
    (h : (is_authenticated now s).1 = true) (hte : s.tokenExpiresAt = some e) :
    e = 0 ∨ now < e := by
  have ht := truthy_accessToken_of_valid h
  by_cases hc : e ≠ 0 ∧ e ≤ now
  · simp [is_authenticated, ht, hte, hc] at h
  · by_cases h0 : e = 0
    · exact Or.inl h0
    · refine Or.inr ?_
      rw [not_and_or] at hc
      rcases hc with hc | hc
      · exact absurd h0 (by simpa using hc)
      · omega

theorem is_authenticated_preserves_creds (now : Nat) (s : ConfigState) :
    (is_authenticated now s).2.clientId = s.clientId ∧
    (is_authenticated now s).2.clientSecret = s.clientSecret := by
  cases ht : truthy s.accessToken with
  | false => simp [is_authenticated, ht]
  | true =>
    cases hte : s.tokenExpiresAt with
    | none => simp [is_authenticated, ht, hte]
    | some e =>
      by_cases hc : e ≠ 0 ∧ e ≤ now
      · simp [is_authenticated, ht, hte, hc, clear_access_token]
      · simp [is_authenticated, ht, hte, hc]

theorem get_access_token_of_valid {now : Nat} {s : ConfigState} (w : World)
    (h : (is_authenticated now s).1 = true) :
    get_access_token now s w = ⟨s.accessToken, s, w, []⟩ := by
  simp [get_access_token, h, is_authenticated_snd_of_valid h]

theorem get_auth_headers_of_valid {now : Nat} {s : ConfigState} (w : World)
    (h : (is_authenticated now s).1 = true) :
    get_auth_headers now s w = ⟨Except.ok (s.accessToken.getD ""), s, w, []⟩ := by
  simp [get_auth_headers, get_access_token_of_valid w h, truthy_accessToken_of_valid h]

theorem ensure_authenticated_of_valid {now : Nat} {st : ClientState} (w : World)
    (h : (is_authenticated now st.cfg).1 = true) :
    ensure_authenticated now st w =
      ⟨Except.ok (), ⟨st.cfg, some (st.cfg.accessToken.getD "")⟩, w, []⟩ := by
  simp [ensure_authenticated, h, is_authenticated_snd_of_valid h, get_auth_headers_of_valid w h]

theorem ensure_authenticated_of_invalid {now : Nat} {st : ClientState} (w : World)
    (h : (is_authenticated now st.cfg).1 = false) :
    ensure_authenticated now st w =
      ⟨Except.error ReqErr.notAuthenticated, { st with cfg := (is_authenticated now st.cfg).2 },
       w, []⟩ := by
  simp [ensure_authenticated, h]

theorem authenticate_ok_eq {cid cs : Option String} {s : ConfigState} (now : Nat) (w : World)
    {t : String} {n : Option Nat}
    (hc1 : truthy (resolved_credentials cid cs s).1 = true)
    (hc2 : truthy (resolved_credentials cid cs s).2 = true)
    (hr : w.authResp w.authCalls = AuthResp.ok t n) :
    authenticate now cid cs s w =
      ⟨Except.ok (),
       { set_access_token t (now + n.getD 3600) s with
           clientId := (resolved_credentials cid cs s).1,
           clientSecret := (resolved_credentials cid cs s).2 },
       { w with authCalls := w.authCalls + 1 }, [Event.authCall]⟩ := by
  simp [authenticate, hc1, hc2, hr]

theorem authenticate_err_eq {cid cs : Option String} {s : ConfigState} (now : Nat) (w : World)
    (hc1 : truthy (resolved_credentials cid cs s).1 = true)
    (hc2 : truthy (resolved_credentials cid cs s).2 = true)
    (hr : w.authResp w.authCalls = AuthResp.err) :
    authenticate now cid cs s w =
      ⟨Except.error AuthErr.authFailed, s, { w with authCalls := w.authCalls + 1 },
       [Event.authCall]⟩ := by
  simp [authenticate, hc1, hc2, hr]

theorem set_access_token_accessToken (t : String) (ex : Nat) (s : ConfigState) :
    (set_access_token t ex s).accessToken = some t := by
  by_cases h : ex ≠ 0 <;> simp [set_access_token, h]

theorem set_access_token_fields (t : String) {ex : Nat} (s : ConfigState) (h : ex ≠ 0) :
    set_access_token t ex s = { s with accessToken := some t, tokenExpiresAt := some ex } := by
  simp [set_access_token, h]

theorem is_authenticated_eq_of_fields {now : Nat} {s : ConfigState} {t : String} {e : Nat}
    (ht : s.accessToken = some t) (htt : t ≠ "") (hte : s.tokenExpiresAt = some e)
    (hnz : e ≠ 0) :
    is_authenticated now s = if e ≤ now then (false, clear_access_token s) else (true, s) := by
  have htr : truthy s.accessToken = true := by simp [truthy, ht, htt]
  by_cases hle : e ≤ now
  · simp [is_authenticated, htr, hte, hnz, hle]
  · simp [is_authenticated, htr, hte, hnz, hle]

theorem valid_iff_of_fields {now : Nat} {s : ConfigState} {t : String} {e : Nat}
    (ht : s.accessToken = some t) (htt : t ≠ "") (hte : s.tokenExpiresAt = some e)
    (hnz : e ≠ 0) : ((is_authenticated now s).1 = true ↔ now < e) := by
  rw [is_authenticated_eq_of_fields ht htt hte hnz]
  by_cases hle : e ≤ now <;> simp [hle] <;> omega

/-! ### C4, C5, C6, C7, C9, C10 -/

/-- C4. Token validity check: with no cached token `is_authenticated` is
false; with a cached Token (non-empty access token, truthy stored expiry)
it is true exactly when `now < expires_at`; the instant `now` reaches
`expires_at` it returns false and evicts the cached token and its expiry,
and a still-valid token is left untouched. -/
theorem is_authenticated_valid_iff (now : Nat) (s : ConfigState) :
    (s.accessToken = none → (is_authenticated now s).1 = false) ∧
    (∀ t e, s.accessToken = some t → t ≠ "" → s.tokenExpiresAt = some e → e ≠ 0 →
      (((is_authenticated now s).1 = true ↔ now < e) ∧
       (e ≤ now → (is_authenticated now s).2.accessToken = none ∧
          (is_authenticated now s).2.tokenExpiresAt = none) ∧
       (now < e → (is_authenticated now s).2 = s))) := by
  constructor
  · intro h
    simp [is_authenticated, truthy, h]
  · intro t e ht htt hte hnz
    rw [is_authenticated_eq_of_fields ht htt hte hnz]
    by_cases hle : e ≤ now
    · refine ⟨?_, fun _ => ?_, fun hlt => ?_⟩
      · simp [hle] <;> omega
      · simp [hle, clear_access_token]
      · omega
    · refine ⟨?_, fun hc => ?_, fun _ => ?_⟩
      · simp [hle] <;> omega
      · omega
      · simp [hle]

/-- Witness for C4: token with expiry 5 checked at time 7 — invalid (7 is
not below 5) and evicted. -/
theorem is_authenticated_valid_iff_witness :
    ((is_authenticated 7 ⟨some "id", some "sec", some "tok", some 5, none⟩).1 = true ↔ 7 < 5) ∧
    (is_authenticated 7 ⟨some "id", some "sec", some "tok", some 5, none⟩).2.accessToken =
      none := by
  have h := (is_authenticated_valid_iff 7 ⟨some "id", some "sec", some "tok", some 5, none⟩).2
    "tok" 5 rfl (by decide) rfl (by decide)
  exact ⟨h.1, (h.2.1 (by decide)).1⟩

/-- C5. Successful authentication: when the token endpoint answers 200
with `access_token = t` and optional `expires_in = n`, the manager stores
the token with expiry `now + n` (3600 when `n` is absent) and stores both
credentials, makes exactly one endpoint call, and the stored token is
valid at a time exactly when that time is below the stored expiry. -/
theorem authenticate_success_postcondition (now : Nat) (cid cs t : String) (n : Option Nat)
    (s : ConfigState) (w : World)
    (hcid : cid ≠ "") (hcs : cs ≠ "")
    (hr : w.authResp w.authCalls = AuthResp.ok t n)
    (htt : t ≠ "") (hnz : now + n.getD 3600 ≠ 0) :
    (authenticate now (some cid) (some cs) s w).res = Except.ok () ∧
    (authenticate now (some cid) (some cs) s w).cfg.accessToken = some t ∧
    (authenticate now (some cid) (some cs) s w).cfg.tokenExpiresAt =
      some (now + n.getD 3600) ∧
    (authenticate now (some cid) (some cs) s w).cfg.clientId = some cid ∧
    (authenticate now (some cid) (some cs) s w).cfg.clientSecret = some cs ∧
    (authenticate now (some cid) (some cs) s w).world.authCalls = w.authCalls + 1 ∧
    (∀ now2,
      ((is_authenticated now2 (authenticate now (some cid) (some cs) s w).cfg).1 = true ↔
        now2 < now + n.getD 3600)) := by
  have hres : resolved_credentials (some cid) (some cs) s = (some cid, some cs) := by
    simp [resolved_credentials, truthy, hcid, hcs]
  have hres1 : truthy (resolved_credentials (some cid) (some cs) s).1 = true := by
    simp [hres, truthy, hcid]
  have hres2 : truthy (resolved_credentials (some cid) (some cs) s).2 = true := by
    simp [hres, truthy, hcs]
  have hauth := authenticate_ok_eq now w hres1 hres2 hr
  rw [hres] at hauth
  have hcfg : (authenticate now (some cid) (some cs) s w).cfg =
      { s with
          accessToken := some t
          tokenExpiresAt := some (now + n.getD 3600)
          clientId := some cid
          clientSecret := some cs } := by
    rw [hauth, set_access_token_fields t s hnz]
  refine ⟨?_, ?_, ?_, ?_, ?_, ?_, ?_⟩
  · rw [hauth]
  · rw [hcfg]
  · rw [hcfg]
  · rw [hcfg]
  · rw [hcfg]
  · rw [hauth]
  · intro now2
    rw [hcfg]
    exact valid_iff_of_fields rfl htt rfl hnz

/-- Witness for C5: the spec's test — a grant of 100 seconds at time 50 is
stored with expiry 150 and is still valid at 149. -/
theorem authenticate_success_postcondition_witness :
    (authenticate 50 (some "id") (some "sec") ⟨none, none, none, none, none⟩
        ⟨fun _ => AuthResp.ok "t" (some 100), fun _ => 200, 0, 0⟩).cfg.tokenExpiresAt =
      some 150 ∧
    ((is_authenticated 149 (authenticate 50 (some "id") (some "sec")
        ⟨none, none, none, none, none⟩
        ⟨fun _ => AuthResp.ok "t" (some 100), fun _ => 200, 0, 0⟩).cfg).1 = true ↔
      149 < 150) := by
  have h := authenticate_success_postcondition 50 "id" "sec" "t" (some 100)
    ⟨none, none, none, none, none⟩
    ⟨fun _ => AuthResp.ok "t" (some 100), fun _ => 200, 0, 0⟩
    (by decide) (by decide) rfl (by decide) (by decide)
  exact ⟨h.2.2.1, h.2.2.2.2.2.2 149⟩

/-- C6. Best-effort token retrieval: with a valid cached token,
`get_access_token` returns it with no network call (world and trace
untouched); otherwise, with stored credentials, it makes exactly one
token endpoint call and yields `none` exactly when that call fails; with
no usable credentials it yields `none` with no call.  It never raises:
the embedding is a total function. -/
theorem get_access_token_best_effort (now : Nat) (s : ConfigState) (w : World) :
    ((is_authenticated now s).1 = true →
      get_access_token now s w = ⟨s.accessToken, s, w, []⟩) ∧
    ((is_authenticated now s).1 = false →
      ((truthy s.clientId = true ∧ truthy s.clientSecret = true) →
        (get_access_token now s w).world.authCalls = w.authCalls + 1 ∧
        ((get_access_token now s w).tok = none ↔ w.authResp w.authCalls = AuthResp.err)) ∧
      (¬(truthy s.clientId = true ∧ truthy s.clientSecret = true) →
        get_access_token now s w = ⟨none, (is_authenticated now s).2, w, []⟩)) := by
  refine ⟨fun hv => get_access_token_of_valid w hv, fun hinv => ⟨?_, ?_⟩⟩
  · rintro ⟨hc1, hc2⟩
    have hpc := is_authenticated_preserves_creds now s
    have hres1 : truthy (resolved_credentials s.clientId s.clientSecret
        (is_authenticated now s).2).1 = true := by
      simp [resolved_credentials, hc1, hc2]
    have hres2 : truthy (resolved_credentials s.clientId s.clientSecret
        (is_authenticated now s).2).2 = true := by
      simp [resolved_credentials, hc1, hc2]
    cases hr : w.authResp w.authCalls with
    | ok t n =>
      have hauth := authenticate_ok_eq now w hres1 hres2 hr
      simp [get_access_token, hinv, get_client_credentials, hpc.1, hpc.2, hc1, hc2, hauth,
        set_access_token_accessToken, hr]
    | err =>
      have hauth := authenticate_err_eq now w hres1 hres2 hr
      simp [get_access_token, hinv, get_client_credentials, hpc.1, hpc.2, hc1, hc2, hauth, hr]
  · intro hc
    have hpc := is_authenticated_preserves_creds now s
    have hcb : (truthy s.clientId && truthy s.clientSecret) = false := by
      cases h1 : truthy s.clientId with
      | false => simp
      | true =>
        cases h2 : truthy s.clientSecret with
        | false => simp
        | true => exact absurd ⟨h1, h2⟩ hc
    simp [get_access_token, hinv, get_client_credentials, hpc.1, hpc.2, hcb]

/-- Witness for C6: a valid cache is returned as-is with no call; with an
expired token and no credentials the result is `none` with no call. -/
theorem get_access_token_best_effort_witness :
    get_access_token 5 validState.cfg freshWorld =
      ⟨some "tok", validState.cfg, freshWorld, []⟩ ∧
    get_access_token 10 ⟨none, none, some "tok", some 5, none⟩ freshWorld =
      ⟨none, (is_authenticated 10 ⟨none, none, some "tok", some 5, none⟩).2, freshWorld, []⟩ := by
  constructor
  · exact (get_access_token_best_effort 5 validState.cfg freshWorld).1 (by decide)
  · exact ((get_access_token_best_effort 10 ⟨none, none, some "tok", some 5, none⟩
      freshWorld).2 (by decide)).2 (by decide)

/-- C7. Logout frame condition: `logout` clears exactly the cached access
token and its stored expiry; the client id, client secret and the other
configuration (default account) are unchanged, so that with stored
credentials and a granting endpoint the next `get_access_token` silently
re-authenticates. -/
theorem logout_frame (s : ConfigState) :
    (logout s).clientId = s.clientId ∧ (logout s).clientSecret = s.clientSecret ∧
    (logout s).defaultAccount = s.defaultAccount ∧
    (logout s).accessToken = none ∧ (logout s).tokenExpiresAt = none ∧
    (∀ now w t n, truthy s.clientId = true → truthy s.clientSecret = true →
      w.authResp w.authCalls = AuthResp.ok t n →
      (get_access_token now (logout s) w).tok = some t) := by
  refine ⟨rfl, rfl, rfl, rfl, rfl, ?_⟩
  intro now w t n hc1 hc2 hr
  have hc1l : truthy (logout s).clientId = true := by
    simpa [logout, clear_access_token] using hc1
  have hc2l : truthy (logout s).clientSecret = true := by
    simpa [logout, clear_access_token] using hc2
  have hinv : is_authenticated now (logout s) = (false, logout s) := by
    simp [logout, clear_access_token, is_authenticated, truthy]
  have hres1 : truthy (resolved_credentials (logout s).clientId (logout s).clientSecret
      (logout s)).1 = true := by
    simp [resolved_credentials, hc1l, hc2l]
  have hres2 : truthy (resolved_credentials (logout s).clientId (logout s).clientSecret
      (logout s)).2 = true := by
    simp [resolved_credentials, hc1l, hc2l]
  have hauth := authenticate_ok_eq now w hres1 hres2 hr
  simp [get_access_token, hinv, get_client_credentials, hc1l, hc2l, hauth,
    set_access_token_accessToken]

/-- Witness for C7: logging out of a valid session keeps the credentials,
clears the token, and the next retrieval re-authenticates to `fresh`. -/
theorem logout_frame_witness :
    (logout validState.cfg).accessToken = none ∧
    (logout validState.cfg).clientId = some "id" ∧
    (get_access_token 5 (logout validState.cfg) freshWorld).tok = some "fresh" := by
  have h := logout_frame validState.cfg
  exact ⟨h.2.2.2.1, h.1, h.2.2.2.2.2 5 freshWorld "fresh" (some 3600)
    (by decide) (by decide) rfl⟩

/-- C9. A cached access token with no stored expiry, or with the falsy
stored expiry 0, never expires: the validity check is true at every time
and does not evict, and `get_access_token` returns the cached token with
no network call and no refresh. -/
theorem token_without_expiry_never_expires (now : Nat) (s : ConfigState) (t : String)
    (ht : s.accessToken = some t) (htt : t ≠ "")
    (he : s.tokenExpiresAt = none ∨ s.tokenExpiresAt = some 0) :
    is_authenticated now s = (true, s) ∧
    ∀ w, get_access_token now s w = ⟨some t, s, w, []⟩ := by
  have htr : truthy s.accessToken = true := by simp [truthy, ht, htt]
  have hA : is_authenticated now s = (true, s) := by
    cases he with
    | inl h => simp [is_authenticated, htr, h]
    | inr h => simp [is_authenticated, htr, h]
  refine ⟨hA, fun w => ?_⟩
  simp [get_access_token, hA, ht]

/-- Witness for C9: a token stored without an expiry is still valid at
time 1000000 and returned without any call. -/
theorem token_without_expiry_never_expires_witness :
    is_authenticated 1000000 ⟨none, none, some "tok", none, none⟩ =
      (true, ⟨none, none, some "tok", none, none⟩) ∧
    get_access_token 1000000 ⟨none, none, some "tok", none, none⟩ freshWorld =
      ⟨some "tok", ⟨none, none, some "tok", none, none⟩, freshWorld, []⟩ := by
  have h := token_without_expiry_never_expires 1000000 ⟨none, none, some "tok", none, none⟩
    "tok" rfl (by decide) (Or.inl rfl)
  exact ⟨h.1, h.2 freshWorld⟩

/-- C10. Missing-credentials precondition: when neither the arguments nor
the stored credentials provide a truthy client id and secret,
`authenticate` raises `ValueError` before any HTTP call — the world sees
no request, no event happens, and the stored state is unchanged. -/
theorem authenticate_missing_credentials (now : Nat) (cid cs : Option String)
    (s : ConfigState) (w : World)
    (h : truthy (resolved_credentials cid cs s).1 = false ∨
         truthy (resolved_credentials cid cs s).2 = false) :
    authenticate now cid cs s w = ⟨Except.error AuthErr.missingCreds, s, w, []⟩ := by
  unfold authenticate
  cases h with
  | inl h => simp [h]
  | inr h => simp [h]

/-- Witness for C10: no arguments and an empty store raise `ValueError`
with nothing touched. -/
theorem authenticate_missing_credentials_witness :
    authenticate 5 none none ⟨none, none, none, none, none⟩ freshWorld =
      ⟨Except.error AuthErr.missingCreds, ⟨none, none, none, none, none⟩, freshWorld, []⟩ := by
  exact authenticate_missing_credentials 5 none none ⟨none, none, none, none, none⟩ freshWorld
    (Or.inl (by decide))

/-! ### C2, C3: the dispatcher -/

theorem authenticate_trace_of_creds {cid cs : Option String}
    (hc1 : truthy cid = true) (hc2 : truthy cs = true) :
    ∀ (now : Nat) (s : ConfigState) (w : World),
      (authenticate now cid cs s w).trace = [Event.authCall] := by
  intro now s w
  cases hr : w.authResp w.authCalls with
  | ok t n => simp [authenticate, resolved_credentials, hc1, hc2, hr]
  | err => simp [authenticate, resolved_credentials, hc1, hc2, hr]

/-- C3 counterexample: with an expired cached token (expiry 5, current
time 10) but working stored credentials, `request` fails with
NotAuthenticatedError even though `get_token()` would have produced a
fresh token — so the failure condition is cache validity, not
`get_token()` yielding `None`. -/
theorem request_fails_despite_token_available :
    (request 10 staleState freshWorld).result = Except.error ReqErr.notAuthenticated ∧
    (get_access_token 10 staleState.cfg freshWorld).tok = some "fresh" :=
  ⟨rfl, rfl⟩

theorem request_valid_shape {now : Nat} {st : ClientState} (w : World)
    (hv : (is_authenticated now st.cfg).1 = true) :
    (∃ k, (request now st w).result = Except.ok k) ∧
    (request now st w).trace.head? =
      some (Event.httpCall (st.cfg.accessToken.getD "") st.cfg.tokenExpiresAt) := by
  have he := ensure_authenticated_of_valid w hv
  simp only [request, he, session_request, get_client_credentials]
  repeat' split
  all_goals exact ⟨⟨_, rfl⟩, by simp⟩

/-- C3 (amended). The dispatcher precondition is cache validity, not
best-effort retrieval: `request` fails with NotAuthenticatedError exactly
when `is_authenticated` is false at the time of the call (even when
`get_access_token` could still have re-authenticated); when a valid token
is cached, the request goes out carrying that cached token as the bearer
of its `Authorization` header. -/
theorem request_not_authenticated_iff (now : Nat) (st : ClientState) (w : World) :
    ((request now st w).result = Except.error ReqErr.notAuthenticated ↔
      (is_authenticated now st.cfg).1 = false) ∧
    ((is_authenticated now st.cfg).1 = true →
      (request now st w).trace.head? =
        some (Event.httpCall (st.cfg.accessToken.getD "") st.cfg.tokenExpiresAt)) := by
  cases hv : (is_authenticated now st.cfg).1 with
  | false =>
    have he := ensure_authenticated_of_invalid w hv
    refine ⟨iff_of_true (by simp [request, he]) rfl, fun hc => ?_⟩
    exact Bool.noConfusion hc
  | true =>
    have hs := request_valid_shape w hv
    refine ⟨iff_of_false ?_ (by simp [hv]), fun _ => hs.2⟩
    intro hres
    obtain ⟨k, hk⟩ := hs.1
    rw [hk] at hres
    exact Except.noConfusion hres

/-- Witness for C3 (amended): with a valid token cached, the request is
sent with the cached bearer `tok` and its stored expiry 100. -/
theorem request_not_authenticated_iff_witness :
    (request 5 validState freshWorld).trace.head? =
      some (Event.httpCall "tok" (some 100)) := by
  have h := request_not_authenticated_iff 5 validState freshWorld
  exact h.2 (by decide)

/-- C2 counterexample, two scenarios against "exactly one
re-authentication on a first 401".  With a valid cached token and a token
endpoint granting already-expired tokens (`expires_in = 0`), a 401
triggers TWO token endpoint calls (the second from the session-header
refresh); with no stored credentials, a 401 triggers ZERO
re-authentications. -/
theorem request_retry_policy_counterexample :
    (request 5 validState zeroLifeWorld).world.authCalls = 2 ∧
    (request 5 noCredsState zeroLifeWorld).world.authCalls = 0 :=
  ⟨rfl, rfl⟩

/-- C2 (amended). Retry policy of the dispatcher, for any request actually
sent (valid cached token) and a token endpoint that grants usable tokens
(non-empty, not already expired): on a first non-401 status, no
re-authentication and no resend happen and the response is returned; on a
first 401 with stored credentials, exactly one re-authentication is
performed and, if it succeeds, the identical request is resent exactly
once and the second response is returned as-is (even a second 401), while
if it fails the original 401 is returned; on a first 401 without stored
credentials, the 401 is returned with no re-authentication.  At most two
resource requests are ever issued, and nothing is raised in the 401
path. -/
theorem request_retry_policy (now : Nat) (st : ClientState) (w : World)
    (hg : usableGrant (w.authResp w.authCalls) = true) :
    (request now st w).world.httpCalls ≤ w.httpCalls + 2 ∧
    ((is_authenticated now st.cfg).1 = false →
      (request now st w).world.authCalls = w.authCalls ∧
      (request now st w).world.httpCalls = w.httpCalls) ∧
    ((is_authenticated now st.cfg).1 = true →
      (w.httpResp w.httpCalls ≠ 401 →
        (request now st w).world.authCalls = w.authCalls ∧
        (request now st w).world.httpCalls = w.httpCalls + 1 ∧
        (request now st w).result = Except.ok (w.httpResp w.httpCalls)) ∧
      (w.httpResp w.httpCalls = 401 →
        ((truthy st.cfg.clientId = true ∧ truthy st.cfg.clientSecret = true) →
          (request now st w).world.authCalls = w.authCalls + 1 ∧
          (∀ t n, w.authResp w.authCalls = AuthResp.ok t n →
            (request now st w).world.httpCalls = w.httpCalls + 2 ∧
            (request now st w).result = Except.ok (w.httpResp (w.httpCalls + 1))) ∧
          (w.authResp w.authCalls = AuthResp.err →
            (request now st w).world.httpCalls = w.httpCalls + 1 ∧
            (request now st w).result = Except.ok 401)) ∧
        (¬(truthy st.cfg.clientId = true ∧ truthy st.cfg.clientSecret = true) →
          (request now st w).world.authCalls = w.authCalls ∧
          (request now st w).world.httpCalls = w.httpCalls + 1 ∧
          (request now st w).result = Except.ok 401))) := by
  have hmain :
      ((is_authenticated now st.cfg).1 = false →
        (request now st w).world.authCalls = w.authCalls ∧
        (request now st w).world.httpCalls = w.httpCalls) ∧
      ((is_authenticated now st.cfg).1 = true →
        (w.httpResp w.httpCalls ≠ 401 →
          (request now st w).world.authCalls = w.authCalls ∧
          (request now st w).world.httpCalls = w.httpCalls + 1 ∧
          (request now st w).result = Except.ok (w.httpResp w.httpCalls)) ∧
        (w.httpResp w.httpCalls = 401 →
          ((truthy st.cfg.clientId = true ∧ truthy st.cfg.clientSecret = true) →
            (request now st w).world.authCalls = w.authCalls + 1 ∧
            (∀ t n, w.authResp w.authCalls = AuthResp.ok t n →
              (request now st w).world.httpCalls = w.httpCalls + 2 ∧
              (request now st w).result = Except.ok (w.httpResp (w.httpCalls + 1))) ∧
            (w.authResp w.authCalls = AuthResp.err →
              (request now st w).world.httpCalls = w.httpCalls + 1 ∧
              (request now st w).result = Except.ok 401)) ∧
          (¬(truthy st.cfg.clientId = true ∧ truthy st.cfg.clientSecret = true) →
            (request now st w).world.authCalls = w.authCalls ∧
            (request now st w).world.httpCalls = w.httpCalls + 1 ∧
            (request now st w).result = Except.ok 401))) := by
    constructor
    · intro hv
      have he := ensure_authenticated_of_invalid w hv
      constructor <;> simp [request, he]
    · intro hv
      have he := ensure_authenticated_of_valid w hv
      constructor
      · intro h401
        have hb : (w.httpResp w.httpCalls == 401) = false := by simp [h401]
        refine ⟨?_, ?_, ?_⟩ <;> simp [request, he, session_request, hb]
      · intro h401
        have hb : (w.httpResp w.httpCalls == 401) = true := by simp [h401]
        constructor
        · rintro ⟨hc1, hc2⟩
          have hcb : (truthy st.cfg.clientId && truthy st.cfg.clientSecret) = true := by
            simp [hc1, hc2]
          have hres1 : truthy (resolved_credentials st.cfg.clientId st.cfg.clientSecret
              st.cfg).1 = true := by
            simp [resolved_credentials, hc1, hc2]
          have hres2 : truthy (resolved_credentials st.cfg.clientId st.cfg.clientSecret
              st.cfg).2 = true := by
            simp [resolved_credentials, hc1, hc2]
          cases hr : w.authResp w.authCalls with
          | ok t n =>
            rw [hr] at hg
            simp only [usableGrant, Bool.and_eq_true, Bool.not_eq_true', beq_eq_false_iff_ne,
              ne_eq] at hg
            obtain ⟨htt, hn0⟩ := hg
            have hnz : now + n.getD 3600 ≠ 0 := by omega
            have hauth := authenticate_ok_eq now { w with httpCalls := w.httpCalls + 1 }
              hres1 hres2 hr
            have hres : (authenticate now st.cfg.clientId st.cfg.clientSecret st.cfg
                { w with httpCalls := w.httpCalls + 1 }).res = Except.ok () := by
              rw [hauth]
            have hca : (authenticate now st.cfg.clientId st.cfg.clientSecret st.cfg
                { w with httpCalls := w.httpCalls + 1 }).cfg.accessToken = some t := by
              rw [hauth]
              simp [set_access_token_accessToken]
            have hcte : (authenticate now st.cfg.clientId st.cfg.clientSecret st.cfg
                { w with httpCalls := w.httpCalls + 1 }).cfg.tokenExpiresAt =
                some (now + n.getD 3600) := by
              rw [hauth]
              simp [set_access_token_fields t st.cfg hnz]
            have hvalid2 : (is_authenticated now (authenticate now st.cfg.clientId
                st.cfg.clientSecret st.cfg
                { w with httpCalls := w.httpCalls + 1 }).cfg).1 = true :=
              (valid_iff_of_fields hca htt hcte hnz).mpr (by omega)
            have hhdr := get_auth_headers_of_valid (authenticate now st.cfg.clientId
              st.cfg.clientSecret st.cfg
              { w with httpCalls := w.httpCalls + 1 }).world hvalid2
            have hw1 : (authenticate now st.cfg.clientId st.cfg.clientSecret st.cfg
                { w with httpCalls := w.httpCalls + 1 }).world.httpCalls =
                w.httpCalls + 1 := by
              rw [hauth]
            have hw2 : (authenticate now st.cfg.clientId st.cfg.clientSecret st.cfg
                { w with httpCalls := w.httpCalls + 1 }).world.httpResp = w.httpResp := by
              rw [hauth]
            have hw3 : (authenticate now st.cfg.clientId st.cfg.clientSecret st.cfg
                { w with httpCalls := w.httpCalls + 1 }).world.authCalls =
                w.authCalls + 1 := by
              rw [hauth]
            refine ⟨?_, ?_, ?_⟩
            · simp [request, he, session_request, get_client_credentials, hb, hcb, hres,
                hhdr, hw1, hw2, hw3]
            · intro t2 n2 hr2
              injection hr2 with h1 h2
              subst h1
              subst h2
              constructor <;>
                simp [request, he, session_request, get_client_credentials, hb, hcb, hres,
                  hhdr, hw1, hw2, hw3]
            · intro hbad
              exact AuthResp.noConfusion hbad
          | err =>
            have hauth := authenticate_err_eq now { w with httpCalls := w.httpCalls + 1 }
              hres1 hres2 hr
            have hres : (authenticate now st.cfg.clientId st.cfg.clientSecret st.cfg
                { w with httpCalls := w.httpCalls + 1 }).res =
                Except.error AuthErr.authFailed := by
              rw [hauth]
            have hw1 : (authenticate now st.cfg.clientId st.cfg.clientSecret st.cfg
                { w with httpCalls := w.httpCalls + 1 }).world.httpCalls =
                w.httpCalls + 1 := by
              rw [hauth]
            have hw3 : (authenticate now st.cfg.clientId st.cfg.clientSecret st.cfg
                { w with httpCalls := w.httpCalls + 1 }).world.authCalls =
                w.authCalls + 1 := by
              rw [hauth]
            refine ⟨?_, ?_, ?_⟩
            · simp [request, he, session_request, get_client_credentials, hb, hcb, hres,
                hw1, hw3]
            · intro t2 n2 hr2
              exact AuthResp.noConfusion hr2
            · intro _
              constructor <;>
                simp [request, he, session_request, get_client_credentials, hb, hcb, hres,
                  hw1, hw3, h401]
        · intro hcred
          have hcb : (truthy st.cfg.clientId && truthy st.cfg.clientSecret) = false := by
            cases h1 : truthy st.cfg.clientId with
            | false => simp
            | true =>
              cases h2 : truthy st.cfg.clientSecret with
              | false => simp
              | true => exact absurd ⟨h1, h2⟩ hcred
          refine ⟨?_, ?_, ?_⟩ <;>
            simp [request, he, session_request, get_client_credentials, hb, hcb, h401]
  refine ⟨?_, hmain.1, hmain.2⟩
  cases hbv : (is_authenticated now st.cfg).1 with
  | false =>
    have h := hmain.1 hbv
    omega
  | true =>
    have h := hmain.2 hbv
    by_cases h401 : w.httpResp w.httpCalls = 401
    · by_cases hcred : truthy st.cfg.clientId = true ∧ truthy st.cfg.clientSecret = true
      · have h2 := (h.2 h401).1 hcred
        cases hr : w.authResp w.authCalls with
        | ok t n =>
          have h3 := (h2.2.1 t n hr).1
          omega
        | err =>
          have h3 := (h2.2.2 hr).1
          omega
      · have h2 := ((h.2 h401).2 hcred).2.1
        omega
    · have h2 := (h.1 h401).2.1
      omega

/-- Witness for C2 (amended): valid token, endpoint always 401, a usable
grant — exactly one re-authentication and exactly two resource calls. -/
theorem request_retry_policy_witness :
    (request 5 validState
      ⟨fun _ => AuthResp.ok "fresh" (some 3600), fun _ => 401, 0, 0⟩).world.authCalls = 1 ∧
    (request 5 validState
      ⟨fun _ => AuthResp.ok "fresh" (some 3600), fun _ => 401, 0, 0⟩).world.httpCalls = 2 := by
  have h := request_retry_policy 5 validState
    ⟨fun _ => AuthResp.ok "fresh" (some 3600), fun _ => 401, 0, 0⟩ (by decide)
  have h2 := ((h.2.2 (by decide)).2 rfl).1 ⟨by decide, by decide⟩
  exact ⟨h2.1, (h2.2.1 "fresh" (some 3600) rfl).1⟩

/-! ### C8: the expiry-use invariant -/

theorem safeTrace_attach {now : Nat} : ∀ (tr : List Event), safeTrace now tr = true →
    ∀ j b e, tr.get? j = some (Event.httpCall b (some e)) → e ≠ 0 → e ≤ now →
    ∃ i, i < j ∧ tr.get? i = some Event.authCall := by
  intro tr
  induction tr with
  | nil =>
    intro _ j b e hj
    simp at hj
  | cons ev rest ih =>
    intro hsafe j b e hj hnz hle
    cases ev with
    | authCall =>
      cases j with
      | zero => simp at hj
      | succ k => exact ⟨0, Nat.succ_pos k, rfl⟩
    | httpCall b0 e0 =>
      have hsafe2 : (!expiredB now e0 && safeTrace now rest) = true := by
        simpa [safeTrace] using hsafe
      rw [Bool.and_eq_true] at hsafe2
      obtain ⟨hne, hrest⟩ := hsafe2
      cases j with
      | zero =>
        simp only [List.get?] at hj
        injection hj with hj2
        injection hj2 with hb he0
        subst he0
        simp [expiredB] at hne
        omega
      | succ k =>
        obtain ⟨i, hik, hi⟩ := ih hrest k b e (by simpa using hj) hnz hle
        exact ⟨i + 1, Nat.succ_lt_succ hik, by simpa using hi⟩

theorem request_trace_safe (now : Nat) (st : ClientState) (w : World) :
    safeTrace now (request now st w).trace = true := by
  cases hv : (is_authenticated now st.cfg).1 with
  | false =>
    have he := ensure_authenticated_of_invalid w hv
    simp [request, he, safeTrace]
  | true =>
    have he := ensure_authenticated_of_valid w hv
    have hne : expiredB now st.cfg.tokenExpiresAt = false := by
      cases hte : st.cfg.tokenExpiresAt with
      | none => simp [expiredB]
      | some e =>
        rcases not_expired_of_valid hv hte with h0 | hlt
        · simp [expiredB, h0]
        · simp [expiredB]
          omega
    cases hq : (w.httpResp w.httpCalls == 401) with
    | false => simp [request, he, session_request, hq, safeTrace, hne]
    | true =>
      cases hcb : (truthy st.cfg.clientId && truthy st.cfg.clientSecret) with
      | false =>
        have hcred : ¬(truthy st.cfg.clientId = true ∧ truthy st.cfg.clientSecret = true) := by
          intro h
          rw [h.1, h.2] at hcb
          simp at hcb
        simp [request, he, session_request, get_client_credentials, hq, hcred, safeTrace, hne]
      | true =>
        have hcb2 := hcb
        rw [Bool.and_eq_true] at hcb2
        obtain ⟨hc1, hc2⟩ := hcb2
        have ha := authenticate_trace_of_creds hc1 hc2
        simp only [request, he, session_request, get_client_credentials]
        repeat' split
        all_goals simp [safeTrace, hne, ha]

/-- C8. Expiry-use invariant: in any execution of the dispatcher, whenever
a resource request goes out carrying a token whose stored expiry is truthy
and not in the future (expired under the source's check), a refresh
attempt — a call to the token endpoint — has happened strictly earlier in
that execution's event sequence. -/
theorem expired_attach_has_prior_refresh (now : Nat) (st : ClientState) (w : World)
    (j : Nat) (b : String) (e : Nat)
    (hj : (request now st w).trace.get? j = some (Event.httpCall b (some e)))
    (hnz : e ≠ 0) (hle : e ≤ now) :
    ∃ i, i < j ∧ (request now st w).trace.get? i = some Event.authCall :=
  safeTrace_attach _ (request_trace_safe now st w) j b e hj hnz hle

/-- Witness for C8: the `expires_in = 0` scenario really attaches an
expired token (stored expiry 5 at time 5) on the resent request, and a
token endpoint call precedes it. -/
theorem expired_attach_has_prior_refresh_witness :
    ∃ i, i < 3 ∧ (request 5 validState zeroLifeWorld).trace.get? i =
      some Event.authCall := by
  exact expired_attach_has_prior_refresh 5 validState zeroLifeWorld 3 "t2" 5 rfl
    (by decide) (by decide)

end Brale
